import Mathlib

/-!
# Verification of the PDF-invoice-to-Excel orchestration layer

Shallow embedding of the orchestration core of the repository
`pdf-invoice-to-excel`:

* `src/services/pdf_processor.py` — `PDFProcessor.process_single_pdf`,
  `process_multiple_pdfs`, `process_multiple_pdfs_in_chunks`,
  `_extract_data_with_openai`, `create_excel_file`;
* `src/clients/llmwhisperer_client.py` — `convert_pdf_to_text`.

Python values (the JSON trees returned by `json.loads`, the dictionaries
built by the service) are embedded as the inductive type `PyVal`, with
Python's truthiness. Python exceptions are modelled explicitly: fallible
steps return `Except Unit _`, and the source's `try/except` blocks become
`match`es consuming the `Except`. External collaborators — the
LLMWhisperer SDK call, the chat-completion call, and `json.loads` — are
oracles passed in as parameters (an `Except`/`Option` outcome, or a
`String → Option PyVal` parse function), exactly where the Python code
calls into them.
-/

/-- A Python value as it occurs in this program: `None`, booleans,
integers, strings, lists and string-keyed dictionaries (insertion-ordered
association lists, as Python dicts are). -/
inductive PyVal where
  | pnone : PyVal
  | pbool : Bool → PyVal
  | pint : Int → PyVal
  | pstr : String → PyVal
  | plist : List PyVal → PyVal
  | pdict : List (String × PyVal) → PyVal
deriving Repr

/-- Python truthiness: `None`, `False`, `0`, `""`, `[]`, `{}` are falsy,
everything else truthy. -/
def PyVal.truthy : PyVal → Bool
  | .pnone => false
  | .pbool b => b
  | .pint n => n != 0
  | .pstr s => s != ""
  | .plist l => !l.isEmpty
  | .pdict d => !d.isEmpty

/-- Lookup in a Python dict: `d[k]` as an `Option` (`some` iff `k in d`). -/
def dictGet (d : List (String × PyVal)) (k : String) : Option PyVal :=
  (d.find? (fun kv => kv.1 == k)).map (fun kv => kv.2)

/-- Python `d.get(k, default)` on a genuine dict. -/
def pyGet (d : List (String × PyVal)) (k : String) (dflt : PyVal) : PyVal :=
  (dictGet d k).getD dflt

/-- Python `v.get(k, default)` on an arbitrary value: an `AttributeError`
(modelled as `Except.error ()`) when `v` is not a dict. -/
def pyAttrGet (v : PyVal) (k : String) (dflt : PyVal) : Except Unit PyVal :=
  match v with
  | .pdict d => .ok (pyGet d k dflt)
  | _ => .error ()

/-- Python `d[k]` on a dict, raising `KeyError` when absent. -/
def pyItem (d : List (String × PyVal)) (k : String) : Except Unit PyVal :=
  match dictGet d k with
  | some v => .ok v
  | none => .error ()

/-- Python `len(v)`: defined for strings, lists and dicts; a `TypeError`
on `None`, booleans and integers. -/
def pyLen : PyVal → Except Unit Nat
  | .pstr s => .ok s.length
  | .plist l => .ok l.length
  | .pdict d => .ok d.length
  | _ => .error ()

/-!
## `_extract_data_with_openai` (pdf_processor.py lines 205–234)

The chat call (`chat_with_system_prompt`) may raise; its outcome is the
`Except Unit String` parameter. `json.loads` is the oracle
`parse : String → Option PyVal` (`none` = `json.JSONDecodeError`). The
source parses the response as JSON and, on a decode error, wraps the raw
text under the key `"raw_text"`; any exception from the chat call itself
yields Python `None` (here `Option.none`).
-/

def extractDataWithOpenai (chatOutcome : Except Unit String)
    (parse : String → Option PyVal) : Option PyVal :=
  match chatOutcome with
  | .error _ => none
  | .ok response =>
    match parse response with
    | some v => some v
    | none => some (.pdict [("raw_text", .pstr response)])

/-!
## `process_single_pdf` (pdf_processor.py lines 80–124)

Inputs, in the order the source consumes them:
* `path` — the outcome of `Path(pdf_path)` / `.name` (path handling may
  raise; caught by the enclosing `try`), yielding the file name;
* `ocr` — the outcome of `convert_pdf_to_text` (an exception, or
  `Optional[str]`);
* `chatOutcome`, `parse` — the oracles for `_extract_data_with_openai`.

The source checks `if not structured_text` (falsy: `None` or `""`) and
`if not extracted_data` (Python truthiness on the parsed JSON value), and
returns a dict with exactly the keys `file_name`, `structured_text`,
`extracted_data`, or `None`.
-/

def processSinglePdf (path : Except Unit String)
    (ocr : Except Unit (Option String))
    (chatOutcome : Except Unit String)
    (parse : String → Option PyVal) : Option (List (String × PyVal)) :=
  match path with
  | .error _ => none
  | .ok fileName =>
    match ocr with
    | .error _ => none
    | .ok none => none
    | .ok (some structuredText) =>
      if structuredText == "" then none
      else
        match extractDataWithOpenai chatOutcome parse with
        | none => none
        | some extractedData =>
          if extractedData.truthy then
            some [("file_name", .pstr fileName),
                  ("structured_text", .pstr structuredText),
                  ("extracted_data", extractedData)]
          else none

/-!
## `process_multiple_pdfs` (pdf_processor.py lines 126–171)

The per-file pipeline runs on a thread pool; `future.result()` may
re-raise an exception, which the loop catches and drops. The pipeline is
abstracted as `pipeline : α → Except Unit (Option (List (String × PyVal)))`
(a deterministic function of the path, per the spec's determinism
assumption). `as_completed` yields futures in a nondeterministic
completion order: we model it as an explicit `order : List α` and state
theorems for every `order` that is a permutation of the submitted paths.
The loop appends `result` only when `if result:` holds — Python
truthiness on the `Optional[dict]`.

The function's last log line (source line 169) evaluates
`processing_time/total_pdfs` inside an f-string; on an empty batch
(`total_pdfs == 0`) this raises `ZeroDivisionError` after the (empty)
collection loop, and nothing catches it, so the call returns nothing.
The embedding therefore yields `Except.error ()` exactly on the empty
order.
-/

/-- One iteration of the `as_completed` collection loop: `none` when the
future raised (`except` branch) or the result was falsy (`None` or an
empty dict), otherwise the result to append. -/
def collectOne (outcome : Except Unit (Option (List (String × PyVal)))) :
    Option (List (String × PyVal)) :=
  match outcome with
  | .error _ => none
  | .ok none => none
  | .ok (some r) => if r.isEmpty then none else some r

def processMultiplePdfs {α : Type}
    (pipeline : α → Except Unit (Option (List (String × PyVal))))
    (order : List α) : Except Unit (List (List (String × PyVal))) :=
  if order.isEmpty then .error ()
  else .ok (order.filterMap (fun p => collectOne (pipeline p)))

/-!
## `process_multiple_pdfs_in_chunks` (pdf_processor.py lines 173–203)

`for i in range(0, total, chunk_size): chunk = pdf_paths[i:i+chunk_size]`
partitions the list into consecutive groups of `chunk_size` (the last one
possibly shorter); each group goes through `process_multiple_pdfs` and
the results are concatenated in chunk order. `chunksOf` is written with a
structural fuel (the list length) so it is total; for a positive chunk
size the fuel never runs out, matching Python, where a non-positive step
raises `ValueError` before any chunk is formed. The per-chunk completion
order is the parameter `order : List α → List α` (for each chunk, the
order `as_completed` yields its futures in). An exception from a chunk's
`process_multiple_pdfs` call propagates (nothing catches it here), so
the chunk results are sequenced in `Except`; an empty path list forms no
chunk at all and yields the empty result list. -/

def chunksOfAux {α : Type} (c : Nat) : Nat → List α → List (List α)
  | 0, _ => []
  | _, [] => []
  | fuel + 1, l => l.take c :: chunksOfAux c fuel (l.drop c)

def chunksOf {α : Type} (c : Nat) (l : List α) : List (List α) :=
  chunksOfAux c l.length l

def processMultiplePdfsInChunks {α : Type}
    (pipeline : α → Except Unit (Option (List (String × PyVal))))
    (chunkSize : Nat) (pdfPaths : List α) (order : List α → List α) :
    Except Unit (List (List (String × PyVal))) := do
  let chunkResults ← (chunksOf chunkSize pdfPaths).mapM
    (fun chunk => processMultiplePdfs pipeline (order chunk))
  pure chunkResults.flatten

/-!
## `convert_pdf_to_text` (llmwhisperer_client.py lines 82–142)

Inputs, in the order the source tests them: `clientTruthy` (`if not
client`), `fileExists` (`pdf_path.exists()`), `suffixIsPdf`
(`pdf_path.suffix.lower() == ".pdf"`), and the outcome of
`client.whisper(...)`: an exception (`LLMWhispererClientException`, a
timeout, or anything else — all caught by the two `except` arms), or a
return value (`None`, or a dict envelope). The source then checks
`result and "extraction" in result and "result_text" in
result["extraction"]`. When `result["extraction"]` is not a dict the
membership test either fails, raises `TypeError`, or passes only for the
subsequent indexing to raise — every such path ends in `None`, which the
catch-all arm of the embedding mirrors. On the success path the log line
computes `len(structured_text)`, which raises `TypeError` (caught, giving
`None`) when the `result_text` value has no length. -/

inductive WhisperOutcome where
  | raises : WhisperOutcome
  | returns : Option (List (String × PyVal)) → WhisperOutcome

def convertPdfToText (clientTruthy fileExists suffixIsPdf : Bool)
    (whisper : WhisperOutcome) : Option PyVal :=
  if !clientTruthy then none
  else if !fileExists then none
  else if !suffixIsPdf then none
  else match whisper with
    | .raises => none
    | .returns none => none
    | .returns (some result) =>
      if result.isEmpty then none
      else match dictGet result "extraction" with
        | some (.pdict extraction) =>
          match dictGet extraction "result_text" with
          | some structuredText =>
            match pyLen structuredText with
            | .ok _ => some structuredText
            | .error _ => none
          | none => none
        | _ => none

/-!
## `create_excel_file` (pdf_processor.py lines 236–319)

Each sheet is built by one pass over `processed_data`; every pass is
guarded by `"extracted_data" in data and isinstance(data["extracted_data"],
dict)`. Row construction evaluates the dict literal's values left to
right; `data["file_name"]` may raise `KeyError`, and `.get` on a non-dict
nested value raises `AttributeError` — any exception aborts the whole
function into the `except` arm, which returns `False`. A sheet is written
only when its row list is non-empty. `pandas.ExcelWriter.__exit__`
saves the workbook through openpyxl, whose save raises `IndexError`
("At least one sheet must be visible") when no sheet was ever written; the
`except` arm turns that into `False` as well. The `Option Workbook`
component of the result is the successfully saved workbook (`none` when
the function returns `False`). -/

/-- Python `for x in v`: the elements for lists, the characters for
strings, the keys for dicts; `TypeError` otherwise. -/
def pyIter : PyVal → Except Unit (List PyVal)
  | .plist l => .ok l
  | .pstr s => .ok (s.toList.map (fun ch => .pstr (String.mk [ch])))
  | .pdict d => .ok (d.map (fun kv => .pstr kv.1))
  | _ => .error ()

/-- `x or y` in Python: `x` when truthy, else `y`. -/
def pyOr (x : PyVal) (y : Except Unit PyVal) : Except Unit PyVal :=
  if x.truthy then .ok x else y

/-- The summary-sheet rows one element of `processed_data` contributes
(lines 250–263): none when the guard fails, one otherwise. -/
def buildSummaryRow (data : List (String × PyVal)) :
    Except Unit (List (List (String × PyVal))) :=
  match dictGet data "extracted_data" with
  | some (.pdict ed) => do
    let datosFactura := pyGet ed "datos_factura" (.pdict [])
    let totales := pyGet ed "totales" (.pdict [])
    let resumenTabular := pyGet ed "resumen_tabular" (.pdict [])
    let archivo ← pyItem data "file_name"
    let n1 ← pyAttrGet datosFactura "numero_factura" .pnone
    let numero ← pyOr n1 (pyAttrGet resumenTabular "numero_factura" (.pstr "N/A"))
    let fecha ← pyAttrGet datosFactura "fecha_emision" (.pstr "N/A")
    let t1 ← pyAttrGet totales "gran_total" .pnone
    let total ← pyOr t1 (pyAttrGet resumenTabular "gran_total" (.pstr "N/A"))
    pure [[("Archivo", archivo), ("Número de Factura", numero),
           ("Fecha", fecha), ("Total", total)]]
  | _ => pure []

/-- The detail-sheet rows one element contributes (lines 270–292): one row
when the guard holds and `resumen_tabular` is truthy. -/
def buildDetailedRow (data : List (String × PyVal)) :
    Except Unit (List (List (String × PyVal))) :=
  match dictGet data "extracted_data" with
  | some (.pdict ed) =>
    let resumenTabular := pyGet ed "resumen_tabular" (.pdict [])
    if resumenTabular.truthy then do
      let archivo ← pyItem data "file_name"
      let numero ← pyAttrGet resumenTabular "numero_factura" (.pstr "")
      let nis ← pyAttrGet resumenTabular "nis" (.pstr "")
      let mes ← pyAttrGet resumenTabular "mes_factura" (.pstr "")
      let tarifa ← pyAttrGet resumenTabular "tarifa" (.pstr "")
      let sector ← pyAttrGet resumenTabular "sector" (.pstr "")
      let totalMes ← pyAttrGet resumenTabular "total_mes" (.pint 0)
      let granTotal ← pyAttrGet resumenTabular "gran_total" (.pint 0)
      let consumo ← pyAttrGet resumenTabular "historico_consumo_kwh" (.pint 0)
      let cargoFijo ← pyAttrGet resumenTabular "cargo_fijo" (.pint 0)
      let energia ← pyAttrGet resumenTabular "energia" (.pint 0)
      let mora ← pyAttrGet resumenTabular "interes_por_mora" (.pint 0)
      let subsidio ← pyAttrGet resumenTabular "subsidio_ley_15_recargo" (.pint 0)
      let varComb ← pyAttrGet resumenTabular "var_combustible" (.pint 0)
      let varTrans ← pyAttrGet resumenTabular "var_transmision" (.pint 0)
      let varGen ← pyAttrGet resumenTabular "var_generacion" (.pint 0)
      pure [[("Archivo", archivo), ("Número de Factura", numero),
             ("NIS", nis), ("Mes de la Factura", mes), ("Tarifa", tarifa),
             ("Sector", sector), ("Total del Mes", totalMes),
             ("Gran Total", granTotal), ("Consumo kWh", consumo),
             ("Cargo Fijo", cargoFijo), ("Energía", energia),
             ("Interés por Mora", mora), ("Subsidio Ley 15", subsidio),
             ("Var. Combustible", varComb), ("Var. Transmisión", varTrans),
             ("Var. Generación", varGen)]]
    else pure []
  | _ => pure []

/-- The concepts-sheet rows one element contributes (lines 299–308): one
row per element of `conceptos_facturacion`. -/
def buildConceptsRows (data : List (String × PyVal)) :
    Except Unit (List (List (String × PyVal))) :=
  match dictGet data "extracted_data" with
  | some (.pdict ed) => do
    let conceptos := pyGet ed "conceptos_facturacion" (.plist [])
    let items ← pyIter conceptos
    items.mapM (fun concepto => do
      let archivo ← pyItem data "file_name"
      let c ← pyAttrGet concepto "concepto" (.pstr "N/A")
      let imp ← pyAttrGet concepto "importe" (.pint 0)
      pure [("Archivo", archivo), ("Concepto", c), ("Importe", imp)])
  | _ => pure []

/-- One sheet-building pass over `processed_data`, concatenating what each
element contributes; the first exception aborts the pass. -/
def buildSheet (f : List (String × PyVal) →
    Except Unit (List (List (String × PyVal)))) :
    List (List (String × PyVal)) →
    Except Unit (List (List (String × PyVal)))
  | [] => .ok []
  | x :: xs => do
    let r ← f x
    let rest ← buildSheet f xs
    pure (r ++ rest)

/-- A saved workbook: its sheets in the order they were written, each a
name and its rows. -/
structure Workbook where
  sheets : List (String × List (List (String × PyVal)))
deriving Repr

/-- The sheets the `with` block writes, or the first exception raised
while building rows. -/
def excelSheets (processedData : List (List (String × PyVal))) :
    Except Unit (List (String × List (List (String × PyVal)))) := do
  let summaryData ← buildSheet buildSummaryRow processedData
  let detailedData ← buildSheet buildDetailedRow processedData
  let conceptsData ← buildSheet buildConceptsRows processedData
  pure ((if summaryData.isEmpty then [] else [("Resumen", summaryData)]) ++
        (if detailedData.isEmpty then [] else [("Detalle_Completo", detailedData)]) ++
        (if conceptsData.isEmpty then [] else [("Conceptos", conceptsData)]))

def createExcelFile (processedData : List (List (String × PyVal))) :
    Bool × Option Workbook :=
  match excelSheets processedData with
  | .error _ => (false, none)
  | .ok sheets =>
    if sheets.isEmpty then (false, none) else (true, some ⟨sheets⟩)

/-!
## Helper lemmas
-/

/-- Did the per-file pipeline fail: the future raised, or
`process_single_pdf` returned `None`? -/
def pipelineFails : Except Unit (Option (List (String × PyVal))) → Bool
  | .error _ => true
  | .ok none => true
  | .ok (some _) => false

@[simp] theorem exceptBindOk {ε α β : Type} (a : α) (f : α → Except ε β) :
    (Except.ok a : Except ε α) >>= f = f a := rfl

@[simp] theorem exceptBindError {ε α β : Type} (e : ε) (f : α → Except ε β) :
    (Except.error e : Except ε α) >>= f = Except.error e := rfl

@[simp] theorem exceptMapOk {ε α β : Type} (a : α) (f : α → β) :
    f <$> (Except.ok a : Except ε α) = Except.ok (f a) := rfl

@[simp] theorem exceptMapError {ε α β : Type} (e : ε) (f : α → β) :
    f <$> (Except.error e : Except ε α) = Except.error e := rfl

theorem length_filterMap_eq_countP {α β : Type} (f : α → Option β) (l : List α) :
    (l.filterMap f).length = l.countP (fun a => (f a).isSome) := by
  induction l with
  | nil => rfl
  | cons x xs ih =>
    cases h : f x <;>
      simp [List.filterMap_cons, h, List.countP_cons, ih]

/-- A successful `process_single_pdf` result is never the empty dict, so
the `if result:` append test in `process_multiple_pdfs` keeps it. -/
theorem processSinglePdf_ne_nil (path : Except Unit String)
    (ocr : Except Unit (Option String)) (chatOutcome : Except Unit String)
    (parse : String → Option PyVal) (d : List (String × PyVal))
    (h : processSinglePdf path ocr chatOutcome parse = some d) : d ≠ [] := by
  unfold processSinglePdf at h
  rcases path with _ | fileName <;> rcases ocr with _ | ocrv <;>
    simp_all
  rcases ocrv with _ | st <;> simp_all
  rcases hst : st == "" <;> simp_all
  rcases hx : extractDataWithOpenai chatOutcome parse with _ | v <;> simp_all
  rcases ht : v.truthy <;> simp_all
  simp [← h.2]

/-!
## C3 — `_extract_data_with_openai` on a model response
-/

/-- C3. For every model response string reached without a chat exception:
valid JSON (the parse oracle yields `some v`) gives exactly the parsed
value, and invalid JSON gives exactly the one-key raw-text fallback dict
around the unmodified response — in both cases a `some`, never the error
outcome `none`. -/
theorem extractData_parse_or_fallback (parse : String → Option PyVal)
    (response : String) :
    extractDataWithOpenai (Except.ok response) parse =
      some ((parse response).getD
        (PyVal.pdict [("raw_text", PyVal.pstr response)])) := by
  unfold extractDataWithOpenai
  cases h : parse response <;> simp [h]

/-!
## C4 — `create_excel_file` on an empty batch
-/

/-- C4. Called on an empty list of processed results,
`create_excel_file` builds no sheet, openpyxl's save of the sheetless
workbook raises, and the function returns `False` with no saved
workbook — never a successfully written empty workbook. -/
theorem createExcelFile_empty : createExcelFile [] = (false, none) := rfl

/-!
## C8 — shape of `process_single_pdf` results
-/

/-- C8. `process_single_pdf` is total (the embedding consumes every
exception outcome of path handling, the OCR step and the extraction
step): for all inputs it returns `None`, or a dict whose keys are exactly
`file_name`, `structured_text`, `extracted_data`, in that order. -/
theorem processSinglePdf_total_shape (path : Except Unit String)
    (ocr : Except Unit (Option String)) (chatOutcome : Except Unit String)
    (parse : String → Option PyVal) :
    processSinglePdf path ocr chatOutcome parse = none ∨
    ∃ d, processSinglePdf path ocr chatOutcome parse = some d ∧
      d.map Prod.fst = ["file_name", "structured_text", "extracted_data"] := by
  unfold processSinglePdf
  rcases path with _ | fileName
  · exact Or.inl rfl
  rcases ocr with _ | (_ | st)
  · exact Or.inl rfl
  · exact Or.inl rfl
  by_cases hst : (st == "") = true
  · simp [hst]
  rcases hx : extractDataWithOpenai chatOutcome parse with _ | v
  · simp [hst, hx]
  by_cases ht : v.truthy = true
  · exact Or.inr ⟨[("file_name", .pstr fileName), ("structured_text", .pstr st),
      ("extracted_data", v)], by simp [hst, hx, ht], rfl⟩
  · simp [hst, hx, ht]

/-!
## C9 — falsy parsed JSON drops the file
-/

/-- C9. When OCR succeeded with non-empty text and the chat call
succeeded with a response that parses as JSON value `v`, the file
produces a result exactly when `v` is Python-truthy; a falsy parse
(`{}`, `[]`, `null`, `0`, `""`, `false`) makes `process_single_pdf`
return `None`, dropping the file. -/
theorem processSinglePdf_truthy_gate (fileName structuredText response : String)
    (parse : String → Option PyVal) (v : PyVal)
    (hst : structuredText ≠ "")
    (hparse : parse response = some v) :
    processSinglePdf (.ok fileName) (.ok (some structuredText))
        (.ok response) parse =
      if v.truthy then
        some [("file_name", .pstr fileName),
              ("structured_text", .pstr structuredText),
              ("extracted_data", v)]
      else none := by
  unfold processSinglePdf extractDataWithOpenai
  simp [hst, hparse]

theorem processSinglePdf_truthy_gate_witness :
    ("x" : String) ≠ "" ∧
    (fun _ : String => some (PyVal.pdict [])) "{}" = some (PyVal.pdict []) ∧
    processSinglePdf (.ok "a.pdf") (.ok (some "x")) (.ok "{}")
        (fun _ => some (PyVal.pdict [])) =
      (if (PyVal.pdict []).truthy then
        some [("file_name", .pstr "a.pdf"), ("structured_text", .pstr "x"),
              ("extracted_data", PyVal.pdict [])]
      else none) :=
  ⟨by decide, rfl,
    processSinglePdf_truthy_gate "a.pdf" "x" "{}" _ _ (by decide) rfl⟩

/-!
## C5 — summary row under missing nested keys
-/

/-- C5. A processed result whose `extracted_data` is a dict missing the
three expected nested keys still contributes exactly one summary row,
with no exception: every probed field falls back to its sentinel
(`"N/A"`). -/
theorem buildSummaryRow_missing_keys (fileName st : String)
    (ed : List (String × PyVal))
    (h1 : dictGet ed "datos_factura" = none)
    (h2 : dictGet ed "totales" = none)
    (h3 : dictGet ed "resumen_tabular" = none) :
    buildSummaryRow [("file_name", .pstr fileName),
                     ("structured_text", .pstr st),
                     ("extracted_data", .pdict ed)] =
      .ok [[("Archivo", .pstr fileName),
            ("Número de Factura", .pstr "N/A"),
            ("Fecha", .pstr "N/A"),
            ("Total", .pstr "N/A")]] := by
  unfold buildSummaryRow
  simp only [dictGet] at h1 h2 h3
  simp [dictGet, pyGet, pyItem, pyAttrGet, pyOr, h1, h2, h3, PyVal.truthy]

theorem buildSummaryRow_missing_keys_witness :
    dictGet [] "datos_factura" = none ∧
    dictGet [] "totales" = none ∧
    dictGet [] "resumen_tabular" = none ∧
    buildSummaryRow [("file_name", .pstr "a.pdf"),
                     ("structured_text", .pstr "t"),
                     ("extracted_data", .pdict [])] =
      .ok [[("Archivo", .pstr "a.pdf"),
            ("Número de Factura", .pstr "N/A"),
            ("Fecha", .pstr "N/A"),
            ("Total", .pstr "N/A")]] :=
  ⟨rfl, rfl, rfl, buildSummaryRow_missing_keys "a.pdf" "t" [] rfl rfl rfl⟩

/-!
## C7 — `create_excel_file` returns a success flag
-/

/-- C7. `create_excel_file` never raises (the embedding consumes every
exception of row construction and of the save) and returns `True`
exactly when every row-building pass succeeded and at least one sheet
was non-empty, so the sheetless save did not raise; in every other case
the single return value is `False`. -/
theorem createExcelFile_flag_iff (processedData : List (List (String × PyVal))) :
    (createExcelFile processedData).1 = true ↔
      ∃ sheets, excelSheets processedData = .ok sheets ∧ sheets ≠ [] := by
  unfold createExcelFile
  cases h : excelSheets processedData with
  | error e => simp
  | ok sheets =>
    by_cases hs : sheets.isEmpty = true <;>
      simp_all [List.isEmpty_iff]

/-!
## C6 — `convert_pdf_to_text` total behaviour
-/

/-- C6. `convert_pdf_to_text` never propagates an exception (the
embedding consumes the whisper outcome, including the raising one) and
yields a result exactly on the success path: client truthy, file
present, `.pdf` suffix, a truthy dict envelope whose `extraction` field
is a dict carrying `result_text` with a sized value (the log line takes
its `len`). On every failure — missing file, wrong extension, vendor
exception or timeout (`.raises`), or a malformed envelope — it returns
`None`. -/
theorem convertPdfToText_some_iff (client fileExists suffixIsPdf : Bool)
    (whisper : WhisperOutcome) (v : PyVal) :
    convertPdfToText client fileExists suffixIsPdf whisper = some v ↔
      (client = true ∧ fileExists = true ∧ suffixIsPdf = true ∧
       ∃ env extraction, whisper = .returns (some env) ∧ env ≠ [] ∧
         dictGet env "extraction" = some (.pdict extraction) ∧
         dictGet extraction "result_text" = some v ∧
         ∃ n, pyLen v = .ok n) := by
  unfold convertPdfToText
  cases client <;> cases fileExists <;> cases suffixIsPdf <;> simp
  cases whisper with
  | raises => simp
  | returns o =>
    cases o with
    | none => simp
    | some env =>
      by_cases he : env.isEmpty = true
      · have : env = [] := List.isEmpty_iff.mp he
        subst this
        simp
      · have hne : env ≠ [] := fun h => he (by simp [h])
        cases hx : dictGet env "extraction" with
        | none => simp [he, hx]
        | some ext =>
          cases ext <;> try simp [he, hx, hne]
          rename_i extraction
          cases hr : dictGet extraction "result_text" with
          | none => simp [he, hx, hr, hne]
          | some st =>
            cases hl : pyLen st with
            | error e =>
              simp only [he, if_false, Bool.false_eq_true, hx, hr, hl]
              simp [hne]
              intro hv
              subst hv
              simp [hl]
            | ok n =>
              simp only [he, Bool.false_eq_true, if_false, hx, hr, hl]
              simp [hne]
              intro hv
              subst hv
              exact ⟨n, hl⟩

/-!
## C10 — truthy non-dict `extracted_data`
-/

/-- When a result's `extracted_data` is present but not a dict, the
summary pass skips it without contributing a row or raising. -/
theorem buildSummaryRow_nondict (item : List (String × PyVal)) (v : PyVal)
    (hget : dictGet item "extracted_data" = some v)
    (hnd : ∀ d, v ≠ PyVal.pdict d) : buildSummaryRow item = .ok [] := by
  unfold buildSummaryRow
  rw [hget]
  cases v <;> first | rfl | exact absurd rfl (hnd _)

/-- The detail pass likewise skips a non-dict `extracted_data`. -/
theorem buildDetailedRow_nondict (item : List (String × PyVal)) (v : PyVal)
    (hget : dictGet item "extracted_data" = some v)
    (hnd : ∀ d, v ≠ PyVal.pdict d) : buildDetailedRow item = .ok [] := by
  unfold buildDetailedRow
  rw [hget]
  cases v <;> first | rfl | exact absurd rfl (hnd _)

/-- The concepts pass likewise skips a non-dict `extracted_data`. -/
theorem buildConceptsRows_nondict (item : List (String × PyVal)) (v : PyVal)
    (hget : dictGet item "extracted_data" = some v)
    (hnd : ∀ d, v ≠ PyVal.pdict d) : buildConceptsRows item = .ok [] := by
  unfold buildConceptsRows
  rw [hget]
  cases v <;> first | rfl | exact absurd rfl (hnd _)

/-- An element contributing no rows and no exception can be removed from
a sheet-building pass without changing its outcome. -/
theorem buildSheet_skip
    (f : List (String × PyVal) → Except Unit (List (List (String × PyVal))))
    (pre post : List (List (String × PyVal))) (item : List (String × PyVal))
    (hf : f item = .ok []) :
    buildSheet f (pre ++ item :: post) = buildSheet f (pre ++ post) := by
  induction pre with
  | nil =>
    simp only [List.nil_append]
    cases h : buildSheet f post with
    | error e => simp [buildSheet, hf, h]
    | ok rest => simp [buildSheet, hf, h]
  | cons x xs ih =>
    simp only [List.cons_append]
    cases hx : f x with
    | error e => simp [buildSheet, hx]
    | ok r => simp [buildSheet, hx, ih]

/-- C10 (amended). A processed result whose `extracted_data` is truthy
but not a dict contributes no row to any sheet and never causes a
failure: `create_excel_file`'s whole outcome (flag and workbook) equals
that of the batch with the result removed. (Whether the call reports
success is therefore decided by the other results alone; a batch of only
such results returns `False`, because no sheet gets written.) -/
theorem createExcelFile_nondict_vanishes
    (pre post : List (List (String × PyVal))) (item : List (String × PyVal))
    (v : PyVal)
    (hget : dictGet item "extracted_data" = some v)
    (_htruthy : v.truthy = true)
    (hnd : ∀ d, v ≠ PyVal.pdict d) :
    createExcelFile (pre ++ item :: post) = createExcelFile (pre ++ post) := by
  have hs := buildSummaryRow_nondict item v hget hnd
  have hd := buildDetailedRow_nondict item v hget hnd
  have hc := buildConceptsRows_nondict item v hget hnd
  unfold createExcelFile excelSheets
  rw [buildSheet_skip _ _ _ _ hs, buildSheet_skip _ _ _ _ hd,
      buildSheet_skip _ _ _ _ hc]

theorem createExcelFile_nondict_vanishes_witness :
    dictGet [("file_name", PyVal.pstr "b.pdf"),
             ("structured_text", PyVal.pstr "t"),
             ("extracted_data", PyVal.plist [PyVal.pint 1])] "extracted_data"
      = some (PyVal.plist [PyVal.pint 1]) ∧
    (PyVal.plist [PyVal.pint 1]).truthy = true ∧
    (∀ d, PyVal.plist [PyVal.pint 1] ≠ PyVal.pdict d) ∧
    createExcelFile
        ([[("file_name", PyVal.pstr "a.pdf"),
           ("extracted_data", PyVal.pdict [("datos_factura", PyVal.pdict [])])]] ++
          [("file_name", PyVal.pstr "b.pdf"),
           ("structured_text", PyVal.pstr "t"),
           ("extracted_data", PyVal.plist [PyVal.pint 1])] :: []) =
      createExcelFile
        ([[("file_name", PyVal.pstr "a.pdf"),
           ("extracted_data", PyVal.pdict [("datos_factura", PyVal.pdict [])])]] ++ []) :=
  ⟨rfl, rfl, fun _ h => PyVal.noConfusion h,
   createExcelFile_nondict_vanishes _ _ _ _ rfl rfl (fun _ h => PyVal.noConfusion h)⟩

/-- C10, the claim as frozen, is false: a batch consisting of one result
whose `extracted_data` is truthy but not a dict gets no row on any sheet
AND `create_excel_file` reports failure (`False`), not success — the
sheetless save raises. -/
theorem createExcelFile_nondict_only_counterexample :
    (PyVal.plist [PyVal.pint 1]).truthy = true ∧
    (createExcelFile [[("file_name", PyVal.pstr "a.pdf"),
        ("structured_text", PyVal.pstr "t"),
        ("extracted_data", PyVal.plist [PyVal.pint 1])]]).1 = false :=
  ⟨rfl, rfl⟩

/-!
## C1 — parallel batch keeps exactly the successes

The count property holds for every non-empty batch
(`processMultiplePdfs_count`); the empty batch instead hits the
`ZeroDivisionError` in the timing log line
(`processMultiplePdfs_empty_batch_raises`), so the code returns no list
at all there.
-/

theorem countP_not_eq_length_sub {α : Type} (p : α → Bool) (l : List α) :
    l.countP (fun a => !p a) = l.length - l.countP p := by
  induction l with
  | nil => rfl
  | cons x xs ih =>
    have hle : xs.countP p ≤ xs.length := List.countP_le_length p
    cases h : p x <;> first
      | (simp [List.countP_cons, h, ih]; omega)
      | simp [List.countP_cons, h, ih]

/-- For every non-empty batch and every completion order `as_completed`
may yield (any permutation of the submitted paths),
`process_multiple_pdfs` returns a list of exactly `N − k` entries, where
`k` counts the files whose pipeline failed (raised, or returned `None`);
nothing is retried. The side condition `hne` — a successful pipeline
result is never an empty dict — holds for `process_single_pdf` by
`processSinglePdf_ne_nil`, and makes the loop's `if result:` test keep
exactly the successes. -/
theorem processMultiplePdfs_count {α : Type}
    (pipeline : α → Except Unit (Option (List (String × PyVal))))
    (pdfPaths order : List α)
    (hperm : order.Perm pdfPaths)
    (hne : ∀ p r, pipeline p = .ok (some r) → r ≠ [])
    (hnonempty : pdfPaths ≠ []) :
    processMultiplePdfs pipeline order =
      .ok (order.filterMap (fun p => collectOne (pipeline p))) ∧
    (order.filterMap (fun p => collectOne (pipeline p))).length =
      pdfPaths.length - pdfPaths.countP (fun p => pipelineFails (pipeline p)) := by
  constructor
  · have horder : order ≠ [] := by
      intro h0
      rw [h0] at hperm
      exact hnonempty hperm.symm.eq_nil
    unfold processMultiplePdfs
    rw [if_neg (fun h => horder (List.isEmpty_iff.mp h))]
  · rw [length_filterMap_eq_countP, hperm.countP_eq]
    have hcong : pdfPaths.countP (fun p => (collectOne (pipeline p)).isSome) =
        pdfPaths.countP (fun p => !pipelineFails (pipeline p)) := by
      refine List.countP_congr ?_
      intro p _
      cases h : pipeline p with
      | error e => simp [collectOne, pipelineFails, h]
      | ok o =>
        cases o with
        | none => simp [collectOne, pipelineFails, h]
        | some r =>
          have hr : r ≠ [] := hne p r h
          simp [collectOne, pipelineFails, h, hr]
    rw [hcong, countP_not_eq_length_sub]

/-- C1, at the input the code mishandles: on the empty batch (`N = 0`,
so `k = 0` — no per-file pipeline exists, let alone fails) the claimed
0-entry result list is never returned; `process_multiple_pdfs` raises
`ZeroDivisionError` computing `processing_time/total_pdfs` in its final
log line (pdf_processor.py line 169). -/
theorem processMultiplePdfs_empty_batch_raises :
    processMultiplePdfs
      (fun _ : Nat => Except.ok (some [("k", PyVal.pstr "x")]))
      ([] : List Nat) = Except.error () := rfl

/-!
## C2 — chunked processing equals unchunked, as multisets

The multiset equality holds for every non-empty path list and positive
chunk size (`processChunks_perm`); on the empty list the two modes
diverge (`processChunks_empty_batch_divergence`): chunked forms no chunk
and returns `[]`, while the single unchunked call raises.
-/

theorem chunksOfAux_flatten {α : Type} (c : Nat) (hc : 0 < c) :
    ∀ (fuel : Nat) (l : List α), l.length ≤ fuel →
      (chunksOfAux c fuel l).flatten = l := by
  intro fuel
  induction fuel with
  | zero =>
    intro l hl
    have h0 : l = [] := List.eq_nil_of_length_eq_zero (Nat.le_zero.mp hl)
    subst h0; rfl
  | succ n ih =>
    intro l hl
    cases l with
    | nil => rfl
    | cons x xs =>
      have h' : ((x :: xs).drop c).length ≤ n := by
        simp only [List.length_drop, List.length_cons]
        simp only [List.length_cons] at hl
        omega
      simp only [chunksOfAux, List.flatten_cons, ih _ h']
      exact List.take_append_drop c (x :: xs)

/-- `range(0, total, chunk_size)` slicing partitions the path list. -/
theorem chunksOf_flatten {α : Type} (c : Nat) (hc : 0 < c) (l : List α) :
    (chunksOf c l).flatten = l :=
  chunksOfAux_flatten c hc l.length l (Nat.le_refl _)

/-- With a positive chunk size every chunk the slicing loop forms is
non-empty. -/
theorem chunksOfAux_mem_ne_nil {α : Type} (c : Nat) (hc : 0 < c) :
    ∀ (fuel : Nat) (l : List α), ∀ ch ∈ chunksOfAux c fuel l, ch ≠ [] := by
  intro fuel
  induction fuel with
  | zero => intro l ch hch; simp [chunksOfAux] at hch
  | succ n ih =>
    intro l ch hch
    cases l with
    | nil => simp [chunksOfAux] at hch
    | cons x xs =>
      simp only [chunksOfAux, List.mem_cons] at hch
      rcases hch with h | h
      · subst h
        obtain ⟨m, rfl⟩ : ∃ m, c = m + 1 :=
          ⟨c - 1, (Nat.succ_pred_eq_of_pos hc).symm⟩
        simp [List.take_succ_cons]
      · exact ih _ ch h

theorem mapM_eq_ok {α β : Type} (f : α → Except Unit β) (g : α → β)
    (L : List α) (h : ∀ a ∈ L, f a = .ok (g a)) :
    L.mapM f = .ok (L.map g) := by
  induction L with
  | nil => rfl
  | cons x xs ih =>
    rw [List.mapM_cons, h x (List.mem_cons_self x xs),
      ih (fun a ha => h a (List.mem_cons_of_mem x ha))]
    rfl

theorem flatten_map_perm {α β : Type} (g1 g2 : List α → List β)
    (L : List (List α)) (h : ∀ ch ∈ L, (g1 ch).Perm (g2 ch)) :
    ((L.map g1).flatten).Perm ((L.map g2).flatten) := by
  induction L with
  | nil => exact List.Perm.refl _
  | cons x xs ih =>
    simp only [List.map_cons, List.flatten_cons]
    exact (h x (List.mem_cons_self x xs)).append
      (ih (fun ch hch => h ch (List.mem_cons_of_mem x hch)))

/-- For a positive chunk size and a non-empty path list, chunked
processing — whatever completion order each chunk's pool run takes —
succeeds and returns a permutation (the same multiset) of what the
single `process_multiple_pdfs` call over the whole list returns under
its own completion order, the pipeline being a deterministic function of
the path. -/
theorem processChunks_perm {α : Type}
    (pipeline : α → Except Unit (Option (List (String × PyVal))))
    (chunkSize : Nat) (pdfPaths : List α)
    (order : List α → List α) (orderW : List α)
    (hc : 0 < chunkSize)
    (horder : ∀ l, (order l).Perm l)
    (hW : orderW.Perm pdfPaths)
    (hnonempty : pdfPaths ≠ []) :
    ∃ chunked unchunked,
      processMultiplePdfsInChunks pipeline chunkSize pdfPaths order =
        .ok chunked ∧
      processMultiplePdfs pipeline orderW = .ok unchunked ∧
      chunked.Perm unchunked := by
  have hok : ∀ ch ∈ chunksOf chunkSize pdfPaths,
      processMultiplePdfs pipeline (order ch) =
        .ok ((order ch).filterMap (fun p => collectOne (pipeline p))) := by
    intro ch hch
    have hch' : ch ≠ [] := chunksOfAux_mem_ne_nil chunkSize hc _ pdfPaths ch hch
    have hord : order ch ≠ [] := by
      intro h0
      have := horder ch
      rw [h0] at this
      exact hch' this.symm.eq_nil
    unfold processMultiplePdfs
    rw [if_neg (fun h => hord (List.isEmpty_iff.mp h))]
  have hW' : orderW ≠ [] := by
    intro h0
    rw [h0] at hW
    exact hnonempty hW.symm.eq_nil
  refine ⟨((chunksOf chunkSize pdfPaths).map
      (fun ch => (order ch).filterMap (fun p => collectOne (pipeline p)))).flatten,
    orderW.filterMap (fun p => collectOne (pipeline p)), ?_, ?_, ?_⟩
  · unfold processMultiplePdfsInChunks
    rw [mapM_eq_ok _ _ _ hok]
    rfl
  · unfold processMultiplePdfs
    rw [if_neg (fun h => hW' (List.isEmpty_iff.mp h))]
  · have h1 : (((chunksOf chunkSize pdfPaths).map
        (fun ch => (order ch).filterMap (fun p => collectOne (pipeline p)))).flatten).Perm
        (((chunksOf chunkSize pdfPaths).map
          (fun ch => ch.filterMap (fun p => collectOne (pipeline p)))).flatten) :=
      flatten_map_perm _ _ _ (fun ch _ => (horder ch).filterMap _)
    have h2 : (((chunksOf chunkSize pdfPaths).map
        (fun ch => ch.filterMap (fun p => collectOne (pipeline p)))).flatten) =
        pdfPaths.filterMap (fun p => collectOne (pipeline p)) := by
      rw [← List.filterMap_flatten, chunksOf_flatten chunkSize hc]
    refine h1.trans ?_
    rw [h2]
    exact (List.Perm.filterMap _ hW).symm

/-- C2, at the input where the two modes diverge: on the empty file
list, chunked processing forms no chunk and returns the empty result
list, while the single `process_multiple_pdfs` call it is claimed to
agree with raises `ZeroDivisionError` (pdf_processor.py line 169) and
returns nothing — so no multiset equality holds there. -/
theorem processChunks_empty_batch_divergence :
    processMultiplePdfsInChunks
        (fun _ : Nat => Except.ok (some [("k", PyVal.pstr "x")])) 5
        ([] : List Nat) (fun l => l) = Except.ok [] ∧
    processMultiplePdfs
        (fun _ : Nat => Except.ok (some [("k", PyVal.pstr "x")]))
        ([] : List Nat) = Except.error () :=
  ⟨rfl, rfl⟩
